import Mathlib

/-!
# Workspace reconciler (vsc-kube)

A shallow embedding of `controllers/workspace_controller.go` and
`pkg/git/git_types.go`.

* The Kubernetes value types (`Pod`, `Container`, ...) carry the fields the
  controller writes; every other field keeps its Go zero value and is left out.
* The store client (`client.Client`) is an interface the reconciler is handed:
  it is a record of state-passing functions over an arbitrary store state `σ`,
  so that theorems hold for every store.  `MemStore` is one concrete store.
* `Reconcile` returns, besides the Go return values `(ctrl.Result, error)`, the
  list of client calls it issued, in order, and the store state it leaves.
* Logging (`r.Log`) has no effect on the returned values or on the store and
  is not modelled.
-/

set_option linter.dupNamespace false

namespace VscKube

/-! ## Errors (`k8s.io/apimachinery/pkg/api/errors`) -/

/-- The `metav1.StatusReason` values that matter here; an error that is not an
API status error has reason `Unknown`. -/
inductive StatusReason where
  | Unknown
  | NotFound
  | AlreadyExists
  | Forbidden
  | ServiceUnavailable
  | Timeout
deriving DecidableEq, Repr

/-- A Go `error` value, by the reason `errors.ReasonForError` reports for it and
its message. A nil error is `none : Option Error`. -/
structure Error where
  Reason : StatusReason
  Message : String
deriving DecidableEq, Repr

/-- The predicate `errors.IsNotFound`. -/
def IsNotFound (err : Error) : Bool :=
  decide (err.Reason = StatusReason.NotFound)

/-- The predicate `errors.IsAlreadyExists`. -/
def IsAlreadyExists (err : Error) : Bool :=
  decide (err.Reason = StatusReason.AlreadyExists)

/-! ## Kubernetes object types -/

/-- The key `types.NamespacedName`. -/
structure NamespacedName where
  Namespace : String := ""
  Name : String := ""
deriving DecidableEq, Repr

/-- The type `metav1.OwnerReference`. -/
structure OwnerReference where
  APIVersion : String := ""
  Kind : String := ""
  Name : String := ""
  UID : String := ""
  Controller : Option Bool := none
  BlockOwnerDeletion : Option Bool := none
deriving DecidableEq, Repr

/-- The fields of `metav1.ObjectMeta` the controller reads or writes. -/
structure ObjectMeta where
  Name : String := ""
  Namespace : String := ""
  UID : String := ""
  DeletionTimestamp : Option Nat := none
  OwnerReferences : List OwnerReference := []
deriving DecidableEq, Repr

/-- The type `v1.ResourceRequirements`: two resource lists, name to quantity. -/
structure ResourceRequirements where
  Limits : List (String × String) := []
  Requests : List (String × String) := []
deriving DecidableEq, Repr

/-- The type `v1.VolumeMount`. -/
structure VolumeMount where
  Name : String := ""
  MountPath : String := ""
deriving DecidableEq, Repr

/-- The type `v1.ContainerPort`. -/
structure ContainerPort where
  Name : String := ""
  ContainerPort : Int := 0
deriving DecidableEq, Repr

/-- The type `v1.Container`. -/
structure Container where
  Name : String := ""
  Image : String := ""
  Args : List String := []
  WorkingDir : String := ""
  Ports : List ContainerPort := []
  Resources : ResourceRequirements := {}
  VolumeMounts : List VolumeMount := []
deriving DecidableEq, Repr

/-- The type `v1.EmptyDirVolumeSource`. -/
structure EmptyDirVolumeSource where
  Medium : String := ""
  SizeLimit : Option String := none
deriving DecidableEq, Repr

/-- The type `v1.VolumeSource`: at most one member is set. The persistent
sources are represented by the name of what they refer to. -/
structure VolumeSource where
  HostPath : Option String := none
  EmptyDir : Option EmptyDirVolumeSource := none
  PersistentVolumeClaim : Option String := none
deriving DecidableEq, Repr

/-- The type `v1.Volume`; `VolumeSource` is embedded in Go. -/
structure Volume extends VolumeSource where
  Name : String := ""
deriving DecidableEq, Repr

/-- The type `v1.PodSpec`. -/
structure PodSpec where
  Volumes : List Volume := []
  InitContainers : List Container := []
  Containers : List Container := []
deriving DecidableEq, Repr

/-- The type `v1.Pod`; `ObjectMeta` is embedded in Go, so `pod.Name` is
`pod.ObjectMeta.Name`. -/
structure Pod extends ObjectMeta where
  Spec : PodSpec := {}
deriving DecidableEq, Repr

/-! ## The Workspace resource -/

/-- The struct `git.Repo` of `pkg/git/git_types.go`. -/
structure Repo where
  Name : String := ""
  URL : String := ""
  BaseRef : String := ""
deriving DecidableEq, Repr

/-- Modelled from the spec: the declaration of `codev1alpha1.WorkspaceSpec`
(package `api/v1alpha1`) is missing; the attributes are
`Spec.Repo {Name, URL, BaseRef}`, `Spec.Image` and `Spec.Resources`. -/
structure WorkspaceSpec where
  Repo : Repo := {}
  Image : String := ""
  Resources : ResourceRequirements := {}
deriving DecidableEq, Repr

/-- Modelled from the spec: the declaration of `codev1alpha1.WorkspaceStatus`
is missing; Status is unused and reserved for observed state. -/
structure WorkspaceStatus where
  Observed : List (String × String) := []
deriving DecidableEq, Repr

/-- Modelled from the spec: the declaration of `codev1alpha1.Workspace` is
missing; a Workspace is identified by `(namespace, name)`, carries a
`DeletionTimestamp` whose presence marks pending removal, a Spec and a Status. -/
structure Workspace extends ObjectMeta where
  Spec : WorkspaceSpec := {}
  Status : WorkspaceStatus := {}
deriving DecidableEq, Repr

/-! ## Owner-reference linker (`ctrl.SetControllerReference`) -/

/-- The type `schema.GroupVersionKind`. -/
structure GroupVersionKind where
  Group : String := ""
  Version : String := ""
  Kind : String := ""
deriving DecidableEq, Repr

/-- The type registry `runtime.Scheme`, by what it answers for the Workspace
type: the group-version-kinds registered for it. -/
structure Scheme where
  WorkspaceKinds : List GroupVersionKind := []
deriving DecidableEq, Repr

/-- The method `GroupVersion.String` applied to the group and version of a kind. -/
def GroupVersionKind.apiVersion (gvk : GroupVersionKind) : String :=
  if gvk.Group = "" then gvk.Version else gvk.Group ++ "/" ++ gvk.Version

/-- Resolution of the owner type against the registry: it succeeds when the
registry knows exactly one kind for the type. -/
def GVKForWorkspace (scheme : Scheme) : Except Error GroupVersionKind :=
  match scheme.WorkspaceKinds with
  | [gvk] => Except.ok gvk
  | [] => Except.error ⟨StatusReason.Unknown, "no kind is registered for the type Workspace"⟩
  | _ => Except.error ⟨StatusReason.Unknown, "multiple group-version-kinds associated with type Workspace"⟩

/-- Modelled from the spec: `link(owner, child)` of the owner-reference linker
(the library call `ctrl.SetControllerReference`). It sets on the child a
controller owner reference pointing at the owner, using the owner's type
information, and fails only if the owner's type cannot be resolved against the
registry; on failure the child is left as it was. Returns the child after the
call and the Go error. -/
def SetControllerReference (owner : Workspace) (controlled : Pod) (scheme : Scheme) :
    Pod × Option Error :=
  match GVKForWorkspace scheme with
  | Except.error err => (controlled, some err)
  | Except.ok gvk =>
    let ref : OwnerReference :=
      { APIVersion := gvk.apiVersion
        Kind := gvk.Kind
        Name := owner.Name
        UID := owner.UID
        Controller := some true
        BlockOwnerDeletion := some true }
    ({ controlled with OwnerReferences := controlled.OwnerReferences ++ [ref] }, none)

/-! ## Desired-state synthesizer -/

/-- The pod literal of `podForWorkspace` (lines 93-149), before the owner
reference is set. -/
def podLiteral (ws : Workspace) : Pod :=
  { Name := ws.Name
    Namespace := ws.Namespace
    Spec :=
      { InitContainers :=
          [ { Name := "clonerefs"
              Image := "alpine/git:latest"
              WorkingDir := "/workspace"
              Args := ["clone", ws.Spec.Repo.URL, ws.Spec.Repo.Name]
              VolumeMounts := [ { Name := "workdir", MountPath := "/workspace" } ] } ]
        Containers :=
          [ { Name := "workspace"
              Image := ws.Spec.Image
              Resources := ws.Spec.Resources
              Args := ["--auth", "none", "/workspace/" ++ ws.Spec.Repo.Name]
              Ports := [ { ContainerPort := 8080, Name := "vsc-port" } ]
              VolumeMounts := [ { Name := "workdir", MountPath := "/workspace" } ] } ]
        Volumes :=
          [ { Name := "workdir", EmptyDir := some {} } ] } }

/-- The method `WorkspaceReconciler.podForWorkspace`: build the pod, call
`SetControllerReference` on it, discard the error it returns, return the pod. -/
def podForWorkspace (scheme : Scheme) (ws : Workspace) : Pod :=
  let pod := podLiteral ws
  (SetControllerReference ws pod scheme).1

/-! ## Store client and reconciler -/

/-- One call on the store client. -/
inductive Call where
  | GetWorkspace (key : NamespacedName)
  | GetPod (key : NamespacedName)
  | Create (pod : Pod)
deriving DecidableEq, Repr

/-- Whether a call mutates the store. -/
def Call.isMutating : Call → Bool
  | Call.GetWorkspace _ => false
  | Call.GetPod _ => false
  | Call.Create _ => true

/-- The pods passed to `Create` in a list of calls. -/
def createsOf : List Call → List Pod
  | [] => []
  | Call.Create pod :: cs => pod :: createsOf cs
  | _ :: cs => createsOf cs

/-- The keys looked up with a pod `Get` in a list of calls. -/
def podLookupsOf : List Call → List NamespacedName
  | [] => []
  | Call.GetPod key :: cs => key :: podLookupsOf cs
  | _ :: cs => podLookupsOf cs

/-- The interface `client.Client`, as far as the reconciler uses it: `Get` into a
Workspace, `Get` into a Pod, `Create` of a Pod. Each call sees the store state
and returns the state after it. -/
structure Client (σ : Type) where
  GetWorkspace : NamespacedName → σ → Except Error Workspace × σ
  GetPod : NamespacedName → σ → Except Error Pod × σ
  Create : Pod → σ → Option Error × σ

/-- The struct `WorkspaceReconciler` (without its logger). -/
structure WorkspaceReconciler (σ : Type) where
  Client : Client σ
  Scheme : Scheme

/-- The type `ctrl.Request`. -/
structure Request where
  NamespacedName : NamespacedName
deriving DecidableEq, Repr

/-- The type `ctrl.Result`; `RequeueAfter` is a duration in nanoseconds. -/
structure Result where
  Requeue : Bool := false
  RequeueAfter : Int := 0
deriving DecidableEq, Repr

/-- What one invocation of `Reconcile` yields: the Go return values `result` and
`err`, the client calls issued in order, and the store state afterwards. -/
structure Outcome (σ : Type) where
  result : Result
  err : Option Error
  calls : List Call
  store : σ

/-- The method `WorkspaceReconciler.Reconcile` (lines 44-84). -/
def Reconcile {σ : Type} (r : WorkspaceReconciler σ) (req : Request) (s : σ) : Outcome σ :=
  match r.Client.GetWorkspace req.NamespacedName s with
  | (Except.error err, s1) =>
    if IsNotFound err then
      ⟨{}, none, [Call.GetWorkspace req.NamespacedName], s1⟩
    else
      ⟨{}, some err, [Call.GetWorkspace req.NamespacedName], s1⟩
  | (Except.ok workspace, s1) =>
    let workspaceForDeletion := workspace.DeletionTimestamp.isSome
    if workspaceForDeletion then
      ⟨{}, none, [Call.GetWorkspace req.NamespacedName], s1⟩
    else
      let key : NamespacedName := { Name := workspace.Name, Namespace := workspace.Namespace }
      match r.Client.GetPod key s1 with
      | (Except.error err, s2) =>
        if IsNotFound err then
          let newPod := podForWorkspace r.Scheme workspace
          match r.Client.Create newPod s2 with
          | (some err, s3) =>
            ⟨{}, some err,
              [Call.GetWorkspace req.NamespacedName, Call.GetPod key, Call.Create newPod], s3⟩
          | (none, s3) =>
            ⟨{ Requeue := true }, none,
              [Call.GetWorkspace req.NamespacedName, Call.GetPod key, Call.Create newPod], s3⟩
        else
          ⟨{}, some err, [Call.GetWorkspace req.NamespacedName, Call.GetPod key], s2⟩
      | (Except.ok _, s2) =>
        ⟨{}, none, [Call.GetWorkspace req.NamespacedName, Call.GetPod key], s2⟩

/-! ## An in-memory store -/

/-- A store holding Workspaces and Pods, each identified by `(namespace, name)`. -/
structure MemStore where
  workspaces : List Workspace := []
  pods : List Pod := []
deriving DecidableEq, Repr

/-- Whether object metadata has the given key. -/
def hasKey (key : NamespacedName) (m : ObjectMeta) : Bool :=
  decide (m.Namespace = key.Namespace) && decide (m.Name = key.Name)

/-- The error `errors.NewNotFound`. -/
def NewNotFound (name : String) : Error :=
  ⟨StatusReason.NotFound, name ++ " not found"⟩

/-- The error `errors.NewAlreadyExists`. -/
def NewAlreadyExists (name : String) : Error :=
  ⟨StatusReason.AlreadyExists, name ++ " already exists"⟩

/-- Lookup of a Workspace by key: the stored object, or NotFound. -/
def MemStore.GetWorkspace (key : NamespacedName) (s : MemStore) : Except Error Workspace × MemStore :=
  match s.workspaces.find? (fun w => hasKey key w.toObjectMeta) with
  | some w => (Except.ok w, s)
  | none => (Except.error (NewNotFound key.Name), s)

/-- Lookup of a Pod by key: the stored object, or NotFound. -/
def MemStore.GetPod (key : NamespacedName) (s : MemStore) : Except Error Pod × MemStore :=
  match s.pods.find? (fun p => hasKey key p.toObjectMeta) with
  | some p => (Except.ok p, s)
  | none => (Except.error (NewNotFound key.Name), s)

/-- Creation of a Pod: rejected with AlreadyExists when a Pod with the same key
is stored, otherwise the Pod is inserted. -/
def MemStore.Create (pod : Pod) (s : MemStore) : Option Error × MemStore :=
  if s.pods.any (fun p => hasKey ⟨pod.Namespace, pod.Name⟩ p.toObjectMeta) then
    (some (NewAlreadyExists pod.Name), s)
  else
    (none, { s with pods := s.pods ++ [pod] })

/-- The in-memory store as a client. -/
def memClient : Client MemStore :=
  { GetWorkspace := MemStore.GetWorkspace
    GetPod := MemStore.GetPod
    Create := MemStore.Create }

/-- The child Pods a store holds for a Workspace: the Pods at the Workspace's
`(namespace, name)`. -/
def MemStore.childPods (s : MemStore) (ws : Workspace) : List Pod :=
  s.pods.filter (fun p => hasKey ⟨ws.Namespace, ws.Name⟩ p.toObjectMeta)

/-- Store identity invariant: no two stored Pods share a `(namespace, name)`. -/
def MemStore.podKeysUnique (s : MemStore) : Prop :=
  (s.pods.map (fun p => (p.Namespace, p.Name))).Nodup

/-! ## Concrete objects used in the examples -/

/-- The scheme of the running manager: the Workspace kind is registered. -/
def managerScheme : Scheme :=
  { WorkspaceKinds := [ { Group := "code.resset.xyz", Version := "v1alpha1", Kind := "Workspace" } ] }

/-- A scheme in which the Workspace type was never registered. -/
def emptyScheme : Scheme := {}

/-- The Workspace `ws1` in namespace `dev` of the testable properties. -/
def ws1 : Workspace :=
  { Name := "ws1"
    Namespace := "dev"
    UID := "uid-ws1"
    Spec := { Repo := { Name := "app", URL := "https://example.git" }, Image := "img:latest" } }

/-- The request for `dev/ws1`. -/
def req1 : Request := ⟨{ Namespace := "dev", Name := "ws1" }⟩

/-- A store holding `ws1` and no Pod. -/
def store1 : MemStore := { workspaces := [ws1] }

/-- A client whose Pod reads are served from a cache that holds no Pod yet, as
when another writer created the Pod after the cache was filled; Workspace reads
and `Create` go to the store. -/
def staleCacheClient : Client MemStore :=
  { GetWorkspace := MemStore.GetWorkspace
    GetPod := fun key s => (Except.error (NewNotFound key.Name), s)
    Create := MemStore.Create }

/-- A Pod `dev/ws1` that is not the one synthesized for `ws1`. -/
def foreignPod : Pod :=
  { Name := "ws1"
    Namespace := "dev"
    Spec := { Containers := [ { Name := "other", Image := "busybox" } ] } }

/-- A store holding `ws1` and a Pod at its key. -/
def store1WithPod : MemStore := { workspaces := [ws1], pods := [foreignPod] }

/-- The Workspace `ws1` marked for deletion. -/
def ws1Deleting : Workspace := { ws1 with DeletionTimestamp := some 1600000000 }

/-- A store holding the Workspace marked for deletion and no Pod. -/
def store1Deleting : MemStore := { workspaces := [ws1Deleting] }

/-- The error of a store that cannot be reached. -/
def errUnavailable : Error := ⟨StatusReason.ServiceUnavailable, "the server is currently unable to handle the request"⟩

/-- A client of an unreachable store: every call fails with `errUnavailable`. -/
def unavailableClient : Client MemStore :=
  { GetWorkspace := fun _ s => (Except.error errUnavailable, s)
    GetPod := fun _ s => (Except.error errUnavailable, s)
    Create := fun _ s => (some errUnavailable, s) }

/-- A Workspace with the Spec of `ws1` and another identity and Status. -/
def ws1Twin : Workspace :=
  { Name := "ws2"
    Namespace := "prod"
    UID := "uid-ws2"
    Spec := ws1.Spec
    Status := { Observed := [("phase", "Running")] } }

/-- The Workspace `ws1` with another base ref and another Status. -/
def ws1Rebased : Workspace :=
  { ws1 with
    Spec := { ws1.Spec with Repo := { ws1.Spec.Repo with BaseRef := "main" } }
    Status := { Observed := [("phase", "Running")] } }

/-- Another Workspace of namespace `dev`. -/
def wsOther : Workspace :=
  { Name := "other"
    Namespace := "dev"
    UID := "uid-other"
    Spec := { Repo := { Name := "lib", URL := "https://example.org/lib.git" }, Image := "ide:1" } }

/-- A Pod stored under another key than `dev/ws1`. -/
def bystanderPod : Pod :=
  { Name := "other"
    Namespace := "dev"
    Spec := { Containers := [ { Name := "workspace", Image := "ide:1" } ] } }

/-- A store holding `ws1` without its Pod, next to another Workspace and a Pod
under another key. -/
def storeCrowded : MemStore := { workspaces := [wsOther, ws1], pods := [bystanderPod] }

/-- The Workspace `ws1` with an empty repository name. -/
def ws1NoName : Workspace :=
  { ws1 with Spec := { ws1.Spec with Repo := { ws1.Spec.Repo with Name := "" } } }

/-- The Workspace `ws1` with a repository name that contains a path separator. -/
def ws1Nested : Workspace :=
  { ws1 with Spec := { ws1.Spec with Repo := { ws1.Spec.Repo with Name := "src/app" } } }

/-! ## Facts about the synthesizer -/

/-- Setting the owner reference changes nothing but the owner references. -/
theorem SetControllerReference_spec (owner : Workspace) (controlled : Pod) (scheme : Scheme) :
    (SetControllerReference owner controlled scheme).1.Spec = controlled.Spec ∧
    (SetControllerReference owner controlled scheme).1.Name = controlled.Name ∧
    (SetControllerReference owner controlled scheme).1.Namespace = controlled.Namespace := by
  unfold SetControllerReference
  cases GVKForWorkspace scheme <;> simp

/-- The pod spec of `podForWorkspace` is the one of the literal. -/
theorem podForWorkspace_Spec (scheme : Scheme) (ws : Workspace) :
    (podForWorkspace scheme ws).Spec = (podLiteral ws).Spec :=
  (SetControllerReference_spec ws (podLiteral ws) scheme).1

/-- The pod of `podForWorkspace` is named after the Workspace. -/
theorem podForWorkspace_Name (scheme : Scheme) (ws : Workspace) :
    (podForWorkspace scheme ws).Name = ws.Name :=
  (SetControllerReference_spec ws (podLiteral ws) scheme).2.1

/-- The pod of `podForWorkspace` lives in the namespace of the Workspace. -/
theorem podForWorkspace_Namespace (scheme : Scheme) (ws : Workspace) :
    (podForWorkspace scheme ws).Namespace = ws.Namespace :=
  (SetControllerReference_spec ws (podLiteral ws) scheme).2.2

/-! ## Facts about the in-memory store -/

/-- Unfolding of `hasKey`. -/
theorem hasKey_iff (key : NamespacedName) (m : ObjectMeta) :
    hasKey key m = true ↔ m.Namespace = key.Namespace ∧ m.Name = key.Name := by
  simp [hasKey]

/-- The synthesized pod has the key of its Workspace. -/
theorem hasKey_podForWorkspace (scheme : Scheme) (ws : Workspace) :
    hasKey { Namespace := ws.Namespace, Name := ws.Name }
      (podForWorkspace scheme ws).toObjectMeta = true := by
  rw [hasKey_iff]
  exact ⟨podForWorkspace_Namespace scheme ws, podForWorkspace_Name scheme ws⟩

/-- Among pods with pairwise distinct keys, a key that is found is the key of
exactly one pod. -/
theorem filter_hasKey_length_of_unique (key : NamespacedName) (pods : List Pod) (p : Pod)
    (huniq : (pods.map (fun q => (q.Namespace, q.Name))).Nodup)
    (hfind : pods.find? (fun q => hasKey key q.toObjectMeta) = some p) :
    (pods.filter (fun q => hasKey key q.toObjectMeta)).length = 1 := by
  induction pods with
  | nil => simp at hfind
  | cons q t ih =>
    rw [List.map_cons, List.nodup_cons] at huniq
    by_cases hq : hasKey key q.toObjectMeta = true
    · have hrest : t.filter (fun x => hasKey key x.toObjectMeta) = [] := by
        rw [List.filter_eq_nil_iff]
        intro x hx hkx
        apply huniq.1
        rw [List.mem_map]
        refine ⟨x, hx, ?_⟩
        rw [hasKey_iff] at hq hkx
        show (x.Namespace, x.Name) = (q.Namespace, q.Name)
        rw [hq.1, hq.2, hkx.1, hkx.2]
      simp only [List.filter_cons, hq, if_true, hrest, List.length_singleton]
    · simp only [List.find?_cons, hq] at hfind
      simp only [List.filter_cons, hq]
      exact ih huniq.2 hfind

/-- The in-memory store answers a Workspace `Get` from its list of Workspaces. -/
theorem memGetWorkspace_ok (key : NamespacedName) (s s1 : MemStore) (ws : Workspace)
    (hws : memClient.GetWorkspace key s = (Except.ok ws, s1)) :
    s.workspaces.find? (fun w => hasKey key w.toObjectMeta) = some ws := by
  simp only [memClient, MemStore.GetWorkspace] at hws
  split at hws
  · rename_i w hw
    simp only [Prod.mk.injEq, Except.ok.injEq] at hws
    rw [hw, hws.1]
  · simp at hws

/-- Reconciling against the in-memory store when the child Pod is stored: a
no-op that leaves the store as it is. -/
theorem memReconcile_present (scheme : Scheme) (req : Request) (s : MemStore)
    (ws : Workspace) (p : Pod)
    (hws : s.workspaces.find? (fun w => hasKey req.NamespacedName w.toObjectMeta) = some ws)
    (hactive : ws.DeletionTimestamp = none)
    (hpod : s.pods.find? (fun q => hasKey { Namespace := ws.Namespace, Name := ws.Name }
      q.toObjectMeta) = some p) :
    Reconcile ⟨memClient, scheme⟩ req s =
      ⟨{}, none,
        [Call.GetWorkspace req.NamespacedName,
         Call.GetPod { Namespace := ws.Namespace, Name := ws.Name }], s⟩ := by
  simp [Reconcile, memClient, MemStore.GetWorkspace, MemStore.GetPod, hws, hactive, hpod]

/-- Reconciling against the in-memory store when no child Pod is stored: the
synthesized Pod is created and inserted. -/
theorem memReconcile_absent (scheme : Scheme) (req : Request) (s : MemStore)
    (ws : Workspace)
    (hws : s.workspaces.find? (fun w => hasKey req.NamespacedName w.toObjectMeta) = some ws)
    (hactive : ws.DeletionTimestamp = none)
    (hpod : s.pods.find? (fun q => hasKey { Namespace := ws.Namespace, Name := ws.Name }
      q.toObjectMeta) = none) :
    Reconcile ⟨memClient, scheme⟩ req s =
      ⟨{ Requeue := true }, none,
        [Call.GetWorkspace req.NamespacedName,
         Call.GetPod { Namespace := ws.Namespace, Name := ws.Name },
         Call.Create (podForWorkspace scheme ws)],
        { s with pods := s.pods ++ [podForWorkspace scheme ws] }⟩ := by
  have hany : s.pods.any (fun q => hasKey
      ⟨(podForWorkspace scheme ws).Namespace, (podForWorkspace scheme ws).Name⟩
      q.toObjectMeta) = false := by
    rw [podForWorkspace_Name, podForWorkspace_Namespace, List.any_eq_false]
    rw [List.find?_eq_none] at hpod
    exact hpod
  simp [Reconcile, memClient, MemStore.GetWorkspace, MemStore.GetPod, MemStore.Create, hws,
    hactive, hpod, hany, IsNotFound, NewNotFound]

/-- The identity invariant of the in-memory store is kept by `Create`. -/
theorem memCreate_podKeysUnique (pod : Pod) (s : MemStore) (huniq : s.podKeysUnique) :
    (MemStore.Create pod s).2.podKeysUnique := by
  unfold MemStore.Create
  split
  · exact huniq
  · rename_i hany
    simp only [Bool.not_eq_true, List.any_eq_false, hasKey_iff, not_and] at hany
    unfold MemStore.podKeysUnique at huniq ⊢
    simp only [List.map_append, List.map_cons, List.map_nil]
    rw [List.nodup_append]
    refine ⟨huniq, List.nodup_singleton _, ?_⟩
    intro k hk hk2
    rw [List.mem_singleton] at hk2
    rw [List.mem_map] at hk
    obtain ⟨q, hq, hqk⟩ := hk
    rw [hk2] at hqk
    injection hqk with h1 h2
    exact hany q hq h1 h2

/-- The identity invariant of the in-memory store is kept by `Reconcile`. -/
theorem memReconcile_podKeysUnique (scheme : Scheme) (req : Request) (s : MemStore)
    (huniq : s.podKeysUnique) :
    (Reconcile ⟨memClient, scheme⟩ req s).store.podKeysUnique := by
  have hc := fun pod => memCreate_podKeysUnique pod s huniq
  unfold Reconcile
  simp only [memClient, MemStore.GetWorkspace, MemStore.GetPod]
  split
  · rename_i err s1 h
    have hs : s1 = s := by
      split at h <;> simp only [Prod.mk.injEq] at h <;> exact h.2.symm
    split <;> (subst hs; exact huniq)
  · rename_i ws s1 h
    have hs : s1 = s := by
      split at h <;> simp only [Prod.mk.injEq] at h <;> exact h.2.symm
    subst hs
    split
    · exact huniq
    · split
      · rename_i err s2 h2
        have hs2 : s2 = s1 := by
          split at h2 <;> simp only [Prod.mk.injEq] at h2 <;> exact h2.2.symm
        subst hs2
        split
        · split
          · rename_i e3 s3 h3
            have := hc (podForWorkspace scheme ws)
            rw [h3] at this
            exact this
          · rename_i s3 h3
            have := hc (podForWorkspace scheme ws)
            rw [h3] at this
            exact this
        · exact huniq
      · rename_i found s2 h2
        have hs2 : s2 = s1 := by
          split at h2 <;> simp only [Prod.mk.injEq] at h2 <;> exact h2.2.symm
        subst hs2
        exact huniq

/-- A Workspace `Get` leaves the in-memory store as it is. -/
theorem memGetWorkspace_store (key : NamespacedName) (s : MemStore) :
    (memClient.GetWorkspace key s).2 = s := by
  simp only [memClient, MemStore.GetWorkspace]
  split <;> rfl

/-- A Pod `Get` leaves the in-memory store as it is. -/
theorem memGetPod_store (key : NamespacedName) (s : MemStore) :
    (memClient.GetPod key s).2 = s := by
  simp only [memClient, MemStore.GetPod]
  split <;> rfl

/-- A `Create` on the in-memory store either fails and leaves the store as it
is, or succeeds and appends the Pod to the stored Pods; the Workspaces are
untouched. -/
theorem memCreate_store (pod : Pod) (s : MemStore) :
    ((memClient.Create pod s).1 ≠ none ∧ (memClient.Create pod s).2 = s) ∨
    ((memClient.Create pod s).1 = none ∧
      (memClient.Create pod s).2.workspaces = s.workspaces ∧
      (memClient.Create pod s).2.pods = s.pods ++ [pod]) := by
  simp only [memClient, MemStore.Create]
  split
  · exact Or.inl ⟨by simp, rfl⟩
  · exact Or.inr ⟨rfl, rfl, rfl⟩

/-- The store after a Workspace `Get` on the in-memory store. -/
theorem memGetWorkspace_eq {key : NamespacedName} {s s1 : MemStore}
    {a : Except Error Workspace} (h : memClient.GetWorkspace key s = (a, s1)) : s1 = s := by
  have hs := memGetWorkspace_store key s
  rw [h] at hs
  exact hs

/-- The store after a Pod `Get` on the in-memory store. -/
theorem memGetPod_eq {key : NamespacedName} {s s1 : MemStore}
    {a : Except Error Pod} (h : memClient.GetPod key s = (a, s1)) : s1 = s := by
  have hs := memGetPod_store key s
  rw [h] at hs
  exact hs

/-- A Pod `Get` on the in-memory store, in terms of the stored Pods. -/
theorem memGetPod_ok_iff (key : NamespacedName) (s : MemStore) (p : Pod) :
    (memClient.GetPod key s).1 = Except.ok p ↔
      s.pods.find? (fun q => hasKey key q.toObjectMeta) = some p := by
  simp only [memClient, MemStore.GetPod]
  split
  · rename_i q hq
    rw [hq]
    simp
  · rename_i hq
    rw [hq]
    simp

/-- On the in-memory store a `Create` that follows a Pod `Get` answering with an
error on the key of the Pod succeeds and appends the Pod. -/
theorem memCreate_after_notFound (key : NamespacedName) (pod : Pod) (s s1 : MemStore)
    (e : Error) (hns : pod.Namespace = key.Namespace) (hname : pod.Name = key.Name)
    (h : memClient.GetPod key s = (Except.error e, s1)) :
    memClient.Create pod s = (none, { s with pods := s.pods ++ [pod] }) := by
  simp only [memClient, MemStore.GetPod] at h
  split at h
  · simp at h
  · rename_i hq
    have hany : s.pods.any (fun q => hasKey ⟨pod.Namespace, pod.Name⟩ q.toObjectMeta) = false := by
      rw [hns, hname, List.any_eq_false]
      rw [List.find?_eq_none] at hq
      exact hq
    simp only [memClient, MemStore.Create, hany]
    rfl

/-! ## Facts about the reconciler -/

/-- The paths of `Reconcile`: every invocation takes exactly one of the seven
return statements of lines 53, 56, 63, 75, 77, 80 and 83, determined by the
answers of the store, and yields the values listed for it. -/
theorem Reconcile_paths {σ : Type} (r : WorkspaceReconciler σ) (req : Request) (s : σ) :
    (∃ e s1, r.Client.GetWorkspace req.NamespacedName s = (Except.error e, s1) ∧
        IsNotFound e = true ∧
        Reconcile r req s = ⟨{}, none, [Call.GetWorkspace req.NamespacedName], s1⟩) ∨
    (∃ e s1, r.Client.GetWorkspace req.NamespacedName s = (Except.error e, s1) ∧
        IsNotFound e = false ∧
        Reconcile r req s = ⟨{}, some e, [Call.GetWorkspace req.NamespacedName], s1⟩) ∨
    (∃ ws s1 t, r.Client.GetWorkspace req.NamespacedName s = (Except.ok ws, s1) ∧
        ws.DeletionTimestamp = some t ∧
        Reconcile r req s = ⟨{}, none, [Call.GetWorkspace req.NamespacedName], s1⟩) ∨
    (∃ ws s1 found s2, r.Client.GetWorkspace req.NamespacedName s = (Except.ok ws, s1) ∧
        ws.DeletionTimestamp = none ∧
        r.Client.GetPod { Namespace := ws.Namespace, Name := ws.Name } s1 =
          (Except.ok found, s2) ∧
        Reconcile r req s =
          ⟨{}, none,
            [Call.GetWorkspace req.NamespacedName,
             Call.GetPod { Namespace := ws.Namespace, Name := ws.Name }], s2⟩) ∨
    (∃ ws s1 e s2, r.Client.GetWorkspace req.NamespacedName s = (Except.ok ws, s1) ∧
        ws.DeletionTimestamp = none ∧
        r.Client.GetPod { Namespace := ws.Namespace, Name := ws.Name } s1 =
          (Except.error e, s2) ∧
        IsNotFound e = false ∧
        Reconcile r req s =
          ⟨{}, some e,
            [Call.GetWorkspace req.NamespacedName,
             Call.GetPod { Namespace := ws.Namespace, Name := ws.Name }], s2⟩) ∨
    (∃ ws s1 e s2 e1 s3, r.Client.GetWorkspace req.NamespacedName s = (Except.ok ws, s1) ∧
        ws.DeletionTimestamp = none ∧
        r.Client.GetPod { Namespace := ws.Namespace, Name := ws.Name } s1 =
          (Except.error e, s2) ∧
        IsNotFound e = true ∧
        r.Client.Create (podForWorkspace r.Scheme ws) s2 = (some e1, s3) ∧
        Reconcile r req s =
          ⟨{}, some e1,
            [Call.GetWorkspace req.NamespacedName,
             Call.GetPod { Namespace := ws.Namespace, Name := ws.Name },
             Call.Create (podForWorkspace r.Scheme ws)], s3⟩) ∨
    (∃ ws s1 e s2 s3, r.Client.GetWorkspace req.NamespacedName s = (Except.ok ws, s1) ∧
        ws.DeletionTimestamp = none ∧
        r.Client.GetPod { Namespace := ws.Namespace, Name := ws.Name } s1 =
          (Except.error e, s2) ∧
        IsNotFound e = true ∧
        r.Client.Create (podForWorkspace r.Scheme ws) s2 = (none, s3) ∧
        Reconcile r req s =
          ⟨{ Requeue := true }, none,
            [Call.GetWorkspace req.NamespacedName,
             Call.GetPod { Namespace := ws.Namespace, Name := ws.Name },
             Call.Create (podForWorkspace r.Scheme ws)], s3⟩) := by
  cases hws : r.Client.GetWorkspace req.NamespacedName s with
  | mk a s1 =>
  cases a with
  | error e0 =>
    cases hnf : IsNotFound e0 with
    | true =>
      exact Or.inl ⟨e0, s1, rfl, hnf, by simp [Reconcile, hws, hnf]⟩
    | false =>
      exact Or.inr (Or.inl ⟨e0, s1, rfl, hnf, by simp [Reconcile, hws, hnf]⟩)
  | ok ws =>
    cases hdel : ws.DeletionTimestamp with
    | some t =>
      exact Or.inr (Or.inr (Or.inl ⟨ws, s1, t, rfl, hdel, by simp [Reconcile, hws, hdel]⟩))
    | none =>
      cases hpod : r.Client.GetPod { Namespace := ws.Namespace, Name := ws.Name } s1 with
      | mk b s2 =>
      cases b with
      | ok found =>
        exact Or.inr (Or.inr (Or.inr (Or.inl
          ⟨ws, s1, found, s2, rfl, hdel, hpod, by simp [Reconcile, hws, hdel, hpod]⟩)))
      | error e0 =>
        cases hnf : IsNotFound e0 with
        | false =>
          exact Or.inr (Or.inr (Or.inr (Or.inr (Or.inl
            ⟨ws, s1, e0, s2, rfl, hdel, hpod, hnf,
              by simp [Reconcile, hws, hdel, hpod, hnf]⟩))))
        | true =>
          cases hcr : r.Client.Create (podForWorkspace r.Scheme ws) s2 with
          | mk c s3 =>
          cases c with
          | some e1 =>
            exact Or.inr (Or.inr (Or.inr (Or.inr (Or.inr (Or.inl
              ⟨ws, s1, e0, s2, e1, s3, rfl, hdel, hpod, hnf, hcr,
                by simp [Reconcile, hws, hdel, hpod, hnf, hcr]⟩)))))
          | none =>
            exact Or.inr (Or.inr (Or.inr (Or.inr (Or.inr (Or.inr
              ⟨ws, s1, e0, s2, s3, rfl, hdel, hpod, hnf, hcr,
                by simp [Reconcile, hws, hdel, hpod, hnf, hcr]⟩)))))

/-! ## Claims -/

/-- C1. Creation triggers requeue: when `Get` of the request key returns a
Workspace without a deletion timestamp, `Get` of the Pod at the Workspace's
`(namespace, name)` returns NotFound and `Create` succeeds, then `Reconcile`
issues exactly one `Create`, the created object is the synthesized Pod, its name
and namespace are the Workspace's, its clone step has arguments
`[clone, Repo.URL, Repo.Name]`, its main step has arguments
`[--auth, none, /workspace/Repo.Name]`, and `Reconcile` returns
`Result{Requeue: true}` with a nil error. -/
theorem C1_creation_triggers_requeue {σ : Type} (r : WorkspaceReconciler σ) (req : Request)
    (s s1 s2 s3 : σ) (ws : Workspace) (e : Error)
    (hws : r.Client.GetWorkspace req.NamespacedName s = (Except.ok ws, s1))
    (hactive : ws.DeletionTimestamp = none)
    (hpod : r.Client.GetPod { Namespace := ws.Namespace, Name := ws.Name } s1 = (Except.error e, s2))
    (hnf : IsNotFound e = true)
    (hcreate : r.Client.Create (podForWorkspace r.Scheme ws) s2 = (none, s3)) :
    createsOf (Reconcile r req s).calls = [podForWorkspace r.Scheme ws] ∧
    ((Reconcile r req s).calls.filter Call.isMutating).length = 1 ∧
    (podForWorkspace r.Scheme ws).Name = ws.Name ∧
    (podForWorkspace r.Scheme ws).Namespace = ws.Namespace ∧
    (podForWorkspace r.Scheme ws).Spec.InitContainers.map Container.Args =
      [["clone", ws.Spec.Repo.URL, ws.Spec.Repo.Name]] ∧
    (podForWorkspace r.Scheme ws).Spec.Containers.map Container.Args =
      [["--auth", "none", "/workspace/" ++ ws.Spec.Repo.Name]] ∧
    (Reconcile r req s).result = { Requeue := true, RequeueAfter := 0 } ∧
    (Reconcile r req s).err = none ∧
    (Reconcile r req s).store = s3 := by
  have hR : Reconcile r req s =
      ⟨{ Requeue := true }, none,
        [Call.GetWorkspace req.NamespacedName,
         Call.GetPod { Namespace := ws.Namespace, Name := ws.Name },
         Call.Create (podForWorkspace r.Scheme ws)], s3⟩ := by
    simp [Reconcile, hws, hactive, hpod, hnf, hcreate]
  rw [hR]
  refine ⟨rfl, rfl, podForWorkspace_Name _ _, podForWorkspace_Namespace _ _, ?_, ?_, rfl, rfl, rfl⟩
  · rw [podForWorkspace_Spec]; rfl
  · rw [podForWorkspace_Spec]; rfl

/-- C1, at the Workspace `ws1` of namespace `dev` in a store without Pods: one
Pod `ws1` in `dev` is created, with clone arguments
`[clone, https://example.git, app]` and main arguments
`[--auth, none, /workspace/app]`, and a requeue is requested. -/
theorem C1_creation_triggers_requeue_witness :
    memClient.GetWorkspace req1.NamespacedName store1 = (Except.ok ws1, store1) ∧
    ws1.DeletionTimestamp = none ∧
    memClient.GetPod { Namespace := "dev", Name := "ws1" } store1 =
      (Except.error (NewNotFound "ws1"), store1) ∧
    (createsOf (Reconcile ⟨memClient, managerScheme⟩ req1 store1).calls =
        [podForWorkspace managerScheme ws1] ∧
      ((Reconcile ⟨memClient, managerScheme⟩ req1 store1).calls.filter Call.isMutating).length = 1 ∧
      (podForWorkspace managerScheme ws1).Name = "ws1" ∧
      (podForWorkspace managerScheme ws1).Namespace = "dev" ∧
      (podForWorkspace managerScheme ws1).Spec.InitContainers.map Container.Args =
        [["clone", "https://example.git", "app"]] ∧
      (podForWorkspace managerScheme ws1).Spec.Containers.map Container.Args =
        [["--auth", "none", "/workspace/app"]] ∧
      (Reconcile ⟨memClient, managerScheme⟩ req1 store1).result =
        { Requeue := true, RequeueAfter := 0 } ∧
      (Reconcile ⟨memClient, managerScheme⟩ req1 store1).err = none ∧
      (Reconcile ⟨memClient, managerScheme⟩ req1 store1).store =
        { workspaces := [ws1], pods := [podForWorkspace managerScheme ws1] }) :=
  ⟨rfl, rfl, rfl,
    C1_creation_triggers_requeue ⟨memClient, managerScheme⟩ req1 store1 store1 store1
      { workspaces := [ws1], pods := [podForWorkspace managerScheme ws1] } ws1
      (NewNotFound "ws1") rfl rfl rfl rfl rfl⟩

/-- C2. For every Workspace, `podForWorkspace` describes exactly two execution
steps: exactly one init container, with working directory `/workspace` and
arguments `[clone, Repo.URL, Repo.Name]`, and exactly one main container, with
image `Spec.Image`, arguments `[--auth, none, /workspace/ ++ Repo.Name]`, exactly
one exposed port, which is 8080, and resources equal to `Spec.Resources`. -/
theorem C2_two_execution_steps (scheme : Scheme) (ws : Workspace) :
    ∃ init main : Container,
      (podForWorkspace scheme ws).Spec.InitContainers = [init] ∧
      init.WorkingDir = "/workspace" ∧
      init.Args = ["clone", ws.Spec.Repo.URL, ws.Spec.Repo.Name] ∧
      (podForWorkspace scheme ws).Spec.Containers = [main] ∧
      main.Image = ws.Spec.Image ∧
      main.Args = ["--auth", "none", "/workspace/" ++ ws.Spec.Repo.Name] ∧
      main.Ports.map ContainerPort.ContainerPort = [8080] ∧
      main.Resources = ws.Spec.Resources := by
  rw [podForWorkspace_Spec]
  exact ⟨_, _, rfl, rfl, rfl, rfl, rfl, rfl, rfl, rfl⟩

/-- C3. Idempotence: for every in-memory store (with pairwise distinct Pod keys)
holding an active Workspace at the request key, running `Reconcile` twice in a
row for that key, `Create` succeeding and inserting the Pod, leaves exactly one
child Pod for that Workspace in the store; the second invocation issues no
`Create` and no other mutating call, leaves the store as the first one left it,
and returns the empty Result with a nil error. -/
theorem C3_idempotence (scheme : Scheme) (req : Request) (s : MemStore) (ws : Workspace)
    (hws : memClient.GetWorkspace req.NamespacedName s = (Except.ok ws, s))
    (hactive : ws.DeletionTimestamp = none)
    (huniq : s.podKeysUnique) :
    ((Reconcile ⟨memClient, scheme⟩ req
        (Reconcile ⟨memClient, scheme⟩ req s).store).store.childPods ws).length = 1 ∧
    createsOf (Reconcile ⟨memClient, scheme⟩ req
        (Reconcile ⟨memClient, scheme⟩ req s).store).calls = [] ∧
    (Reconcile ⟨memClient, scheme⟩ req
        (Reconcile ⟨memClient, scheme⟩ req s).store).calls.filter Call.isMutating = [] ∧
    (Reconcile ⟨memClient, scheme⟩ req
        (Reconcile ⟨memClient, scheme⟩ req s).store).store =
      (Reconcile ⟨memClient, scheme⟩ req s).store ∧
    (Reconcile ⟨memClient, scheme⟩ req
        (Reconcile ⟨memClient, scheme⟩ req s).store).result = {} ∧
    (Reconcile ⟨memClient, scheme⟩ req
        (Reconcile ⟨memClient, scheme⟩ req s).store).err = none := by
  have hfind := memGetWorkspace_ok req.NamespacedName s s ws hws
  cases hp : s.pods.find? (fun q => hasKey { Namespace := ws.Namespace, Name := ws.Name }
      q.toObjectMeta) with
  | some p =>
    have h1 := memReconcile_present scheme req s ws p hfind hactive hp
    rw [h1]
    simp only
    rw [h1]
    refine ⟨?_, rfl, rfl, rfl, rfl, rfl⟩
    exact filter_hasKey_length_of_unique _ s.pods p huniq hp
  | none =>
    have h1 := memReconcile_absent scheme req s ws hfind hactive hp
    have hp2 : (s.pods ++ [podForWorkspace scheme ws]).find?
        (fun q => hasKey { Namespace := ws.Namespace, Name := ws.Name } q.toObjectMeta) =
        some (podForWorkspace scheme ws) := by
      rw [List.find?_append, hp]
      simp [List.find?, hasKey_podForWorkspace]
    have h2 := memReconcile_present scheme req
      { s with pods := s.pods ++ [podForWorkspace scheme ws] } ws (podForWorkspace scheme ws)
      hfind hactive hp2
    rw [h1]
    simp only
    rw [h2]
    refine ⟨?_, rfl, rfl, rfl, rfl, rfl⟩
    have hnil : s.pods.filter (fun q => hasKey { Namespace := ws.Namespace, Name := ws.Name }
        q.toObjectMeta) = [] := by
      rw [List.filter_eq_nil_iff]
      rw [List.find?_eq_none] at hp
      exact hp
    simp only [MemStore.childPods, List.filter_append, hnil, List.nil_append]
    simp [List.filter, hasKey_podForWorkspace]

/-- C3, at the store holding `ws1` and no Pod: after two runs one child Pod is
stored and the second run did not mutate. -/
theorem C3_idempotence_witness :
    memClient.GetWorkspace req1.NamespacedName store1 = (Except.ok ws1, store1) ∧
    ws1.DeletionTimestamp = none ∧
    store1.podKeysUnique ∧
    (((Reconcile ⟨memClient, managerScheme⟩ req1
        (Reconcile ⟨memClient, managerScheme⟩ req1 store1).store).store.childPods ws1).length = 1 ∧
      createsOf (Reconcile ⟨memClient, managerScheme⟩ req1
        (Reconcile ⟨memClient, managerScheme⟩ req1 store1).store).calls = [] ∧
      (Reconcile ⟨memClient, managerScheme⟩ req1
        (Reconcile ⟨memClient, managerScheme⟩ req1 store1).store).calls.filter
          Call.isMutating = [] ∧
      (Reconcile ⟨memClient, managerScheme⟩ req1
        (Reconcile ⟨memClient, managerScheme⟩ req1 store1).store).store =
        (Reconcile ⟨memClient, managerScheme⟩ req1 store1).store ∧
      (Reconcile ⟨memClient, managerScheme⟩ req1
        (Reconcile ⟨memClient, managerScheme⟩ req1 store1).store).result = {} ∧
      (Reconcile ⟨memClient, managerScheme⟩ req1
        (Reconcile ⟨memClient, managerScheme⟩ req1 store1).store).err = none) :=
  ⟨rfl, rfl, List.nodup_nil,
    C3_idempotence managerScheme req1 store1 ws1 rfl rfl List.nodup_nil⟩

/-- C4 as stated fails: with `ws1` active, the Pod lookup answering NotFound and
the store rejecting `Create` with AlreadyExists, `Reconcile` returns the
AlreadyExists error, not nil. -/
theorem C4_alreadyExists_counterexample :
    staleCacheClient.GetWorkspace req1.NamespacedName store1WithPod =
      (Except.ok ws1, store1WithPod) ∧
    ws1.DeletionTimestamp = none ∧
    staleCacheClient.GetPod { Namespace := ws1.Namespace, Name := ws1.Name } store1WithPod =
      (Except.error (NewNotFound "ws1"), store1WithPod) ∧
    IsNotFound (NewNotFound "ws1") = true ∧
    staleCacheClient.Create (podForWorkspace managerScheme ws1) store1WithPod =
      (some (NewAlreadyExists "ws1"), store1WithPod) ∧
    IsAlreadyExists (NewAlreadyExists "ws1") = true ∧
    (Reconcile ⟨staleCacheClient, managerScheme⟩ req1 store1WithPod).err =
      some (NewAlreadyExists "ws1") ∧
    (Reconcile ⟨staleCacheClient, managerScheme⟩ req1 store1WithPod).err ≠ none :=
  ⟨rfl, rfl, rfl, rfl, rfl, rfl, rfl, by decide⟩

/-- C4, amended. AlreadyExists is propagated: for every active Workspace whose
child Pod lookup returns NotFound, if the store rejects the subsequent `Create`
with an AlreadyExists error, `Reconcile` returns that error unchanged, with the
empty Result, after the one `Create`. -/
theorem C4_alreadyExists_is_propagated {σ : Type} (r : WorkspaceReconciler σ) (req : Request)
    (s s1 s2 s3 : σ) (ws : Workspace) (e eExists : Error)
    (hws : r.Client.GetWorkspace req.NamespacedName s = (Except.ok ws, s1))
    (hactive : ws.DeletionTimestamp = none)
    (hpod : r.Client.GetPod { Namespace := ws.Namespace, Name := ws.Name } s1 = (Except.error e, s2))
    (hnf : IsNotFound e = true)
    (hcreate : r.Client.Create (podForWorkspace r.Scheme ws) s2 = (some eExists, s3))
    (_hexists : IsAlreadyExists eExists = true) :
    (Reconcile r req s).err = some eExists ∧
    (Reconcile r req s).result = {} ∧
    createsOf (Reconcile r req s).calls = [podForWorkspace r.Scheme ws] := by
  have hR : Reconcile r req s =
      ⟨{}, some eExists,
        [Call.GetWorkspace req.NamespacedName,
         Call.GetPod { Namespace := ws.Namespace, Name := ws.Name },
         Call.Create (podForWorkspace r.Scheme ws)], s3⟩ := by
    simp [Reconcile, hws, hactive, hpod, hnf, hcreate]
  rw [hR]
  exact ⟨rfl, rfl, rfl⟩

/-- C4 amended, at the store where the Pod of `ws1` exists behind a stale cache. -/
theorem C4_alreadyExists_is_propagated_witness :
    IsAlreadyExists (NewAlreadyExists "ws1") = true ∧
    (Reconcile ⟨staleCacheClient, managerScheme⟩ req1 store1WithPod).err =
      some (NewAlreadyExists "ws1") ∧
    (Reconcile ⟨staleCacheClient, managerScheme⟩ req1 store1WithPod).result = {} ∧
    createsOf (Reconcile ⟨staleCacheClient, managerScheme⟩ req1 store1WithPod).calls =
      [podForWorkspace managerScheme ws1] :=
  ⟨rfl,
    C4_alreadyExists_is_propagated ⟨staleCacheClient, managerScheme⟩ req1 store1WithPod
      store1WithPod store1WithPod store1WithPod ws1 (NewNotFound "ws1") (NewAlreadyExists "ws1")
      rfl rfl rfl rfl rfl rfl⟩

/-- When the registry resolves the Workspace type, the synthesized Pod carries
exactly one owner reference: a controller reference with the name and UID of the
Workspace, and the Pod lives in the namespace of the Workspace. -/
theorem podForWorkspace_owner_of_resolved (scheme : Scheme) (ws : Workspace)
    (gvk : GroupVersionKind) (hgvk : GVKForWorkspace scheme = Except.ok gvk) :
    (podForWorkspace scheme ws).OwnerReferences =
      [{ APIVersion := gvk.apiVersion, Kind := gvk.Kind, Name := ws.Name, UID := ws.UID,
         Controller := some true, BlockOwnerDeletion := some true }] ∧
    (podForWorkspace scheme ws).Namespace = ws.Namespace := by
  simp [podForWorkspace, SetControllerReference, hgvk, podLiteral]

/-- When the registry does not resolve the Workspace type, the error of
`SetControllerReference` is dropped and the synthesized Pod is the literal,
without any owner reference. -/
theorem podForWorkspace_of_unresolved (scheme : Scheme) (ws : Workspace)
    (err : Error) (hgvk : GVKForWorkspace scheme = Except.error err) :
    (SetControllerReference ws (podLiteral ws) scheme).2 = some err ∧
    podForWorkspace scheme ws = podLiteral ws ∧
    (podForWorkspace scheme ws).OwnerReferences = [] := by
  simp [podForWorkspace, SetControllerReference, hgvk, podLiteral]

/-- C5 at the failing input: with a registry that does not know the Workspace
type, `Reconcile` for `dev/ws1` issues a `Create`, and the Pod passed to it
carries no owner reference at all. -/
theorem C5_owner_linkage_fails_on_unresolved_scheme :
    createsOf (Reconcile ⟨memClient, emptyScheme⟩ req1 store1).calls =
      [podForWorkspace emptyScheme ws1] ∧
    (podForWorkspace emptyScheme ws1).OwnerReferences = [] ∧
    (Reconcile ⟨memClient, emptyScheme⟩ req1 store1).store.pods.map
      (fun p => p.OwnerReferences) = [[]] :=
  ⟨rfl, rfl, rfl⟩

/-- C6 at the failing input: with a registry that does not know the Workspace
type, setting the controller reference on the synthesized Pod fails, and
`Reconcile` nevertheless creates the Pod and returns `Result{Requeue: true}`
with a nil error. -/
theorem C6_owner_reference_failure_is_swallowed :
    (SetControllerReference ws1 (podLiteral ws1) emptyScheme).2 =
      some ⟨StatusReason.Unknown, "no kind is registered for the type Workspace"⟩ ∧
    (Reconcile ⟨memClient, emptyScheme⟩ req1 store1).err = none ∧
    (Reconcile ⟨memClient, emptyScheme⟩ req1 store1).result = { Requeue := true } ∧
    createsOf (Reconcile ⟨memClient, emptyScheme⟩ req1 store1).calls = [podLiteral ws1] :=
  ⟨rfl, rfl, rfl, rfl⟩

/-- C7. Absent-owner no-op: when `Get` of the Workspace returns NotFound,
`Reconcile` returns the empty Result (Requeue false, RequeueAfter zero) with a
nil error, its only call is that `Get`, it issues no `Create` and looks up no
child Pod. -/
theorem C7_absent_owner_noop {σ : Type} (r : WorkspaceReconciler σ) (req : Request)
    (s s1 : σ) (e : Error)
    (hws : r.Client.GetWorkspace req.NamespacedName s = (Except.error e, s1))
    (hnf : IsNotFound e = true) :
    (Reconcile r req s).result = { Requeue := false, RequeueAfter := 0 } ∧
    (Reconcile r req s).err = none ∧
    (Reconcile r req s).calls = [Call.GetWorkspace req.NamespacedName] ∧
    createsOf (Reconcile r req s).calls = [] ∧
    podLookupsOf (Reconcile r req s).calls = [] := by
  have hR : Reconcile r req s = ⟨{}, none, [Call.GetWorkspace req.NamespacedName], s1⟩ := by
    simp [Reconcile, hws, hnf]
  rw [hR]
  exact ⟨rfl, rfl, rfl, rfl, rfl⟩

/-- C7, at a store that holds no Workspace. -/
theorem C7_absent_owner_noop_witness :
    memClient.GetWorkspace req1.NamespacedName {} = (Except.error (NewNotFound "ws1"), {}) ∧
    IsNotFound (NewNotFound "ws1") = true ∧
    ((Reconcile ⟨memClient, managerScheme⟩ req1 {}).result =
        { Requeue := false, RequeueAfter := 0 } ∧
      (Reconcile ⟨memClient, managerScheme⟩ req1 {}).err = none ∧
      (Reconcile ⟨memClient, managerScheme⟩ req1 {}).calls =
        [Call.GetWorkspace req1.NamespacedName] ∧
      createsOf (Reconcile ⟨memClient, managerScheme⟩ req1 {}).calls = [] ∧
      podLookupsOf (Reconcile ⟨memClient, managerScheme⟩ req1 {}).calls = []) :=
  ⟨rfl, rfl,
    C7_absent_owner_noop ⟨memClient, managerScheme⟩ req1 {} {} (NewNotFound "ws1") rfl rfl⟩

/-- C8. Deletion no-op: when the fetched Workspace has its DeletionTimestamp
set, `Reconcile` performs no mutating call (no `Create`, whatever the store
would answer for the child Pod, which is not even looked up) and returns the
empty Result with a nil error. -/
theorem C8_deletion_noop {σ : Type} (r : WorkspaceReconciler σ) (req : Request)
    (s s1 : σ) (ws : Workspace) (t : Nat)
    (hws : r.Client.GetWorkspace req.NamespacedName s = (Except.ok ws, s1))
    (hdel : ws.DeletionTimestamp = some t) :
    (Reconcile r req s).calls.filter Call.isMutating = [] ∧
    createsOf (Reconcile r req s).calls = [] ∧
    (Reconcile r req s).calls = [Call.GetWorkspace req.NamespacedName] ∧
    (Reconcile r req s).result = { Requeue := false, RequeueAfter := 0 } ∧
    (Reconcile r req s).err = none := by
  have hR : Reconcile r req s = ⟨{}, none, [Call.GetWorkspace req.NamespacedName], s1⟩ := by
    simp [Reconcile, hws, hdel]
  rw [hR]
  exact ⟨rfl, rfl, rfl, rfl, rfl⟩

/-- C8, at a store holding `ws1` marked for deletion and no child Pod. -/
theorem C8_deletion_noop_witness :
    memClient.GetWorkspace req1.NamespacedName store1Deleting =
      (Except.ok ws1Deleting, store1Deleting) ∧
    ws1Deleting.DeletionTimestamp = some 1600000000 ∧
    store1Deleting.childPods ws1Deleting = [] ∧
    ((Reconcile ⟨memClient, managerScheme⟩ req1 store1Deleting).calls.filter
        Call.isMutating = [] ∧
      createsOf (Reconcile ⟨memClient, managerScheme⟩ req1 store1Deleting).calls = [] ∧
      (Reconcile ⟨memClient, managerScheme⟩ req1 store1Deleting).calls =
        [Call.GetWorkspace req1.NamespacedName] ∧
      (Reconcile ⟨memClient, managerScheme⟩ req1 store1Deleting).result =
        { Requeue := false, RequeueAfter := 0 } ∧
      (Reconcile ⟨memClient, managerScheme⟩ req1 store1Deleting).err = none) :=
  ⟨rfl, rfl, rfl,
    C8_deletion_noop ⟨memClient, managerScheme⟩ req1 store1Deleting store1Deleting ws1Deleting
      1600000000 rfl rfl⟩

/-- C9. Existing child no-op: when the fetched Workspace is active and `Get` of
the Pod at its `(namespace, name)` returns a Pod, whatever that Pod is,
`Reconcile` performs zero creates and returns the empty Result with a nil
error. -/
theorem C9_existing_child_noop {σ : Type} (r : WorkspaceReconciler σ) (req : Request)
    (s s1 s2 : σ) (ws : Workspace) (found : Pod)
    (hws : r.Client.GetWorkspace req.NamespacedName s = (Except.ok ws, s1))
    (hactive : ws.DeletionTimestamp = none)
    (hpod : r.Client.GetPod { Namespace := ws.Namespace, Name := ws.Name } s1 =
      (Except.ok found, s2)) :
    createsOf (Reconcile r req s).calls = [] ∧
    (Reconcile r req s).calls.filter Call.isMutating = [] ∧
    (Reconcile r req s).result = { Requeue := false, RequeueAfter := 0 } ∧
    (Reconcile r req s).err = none := by
  have hR : Reconcile r req s =
      ⟨{}, none,
        [Call.GetWorkspace req.NamespacedName,
         Call.GetPod { Namespace := ws.Namespace, Name := ws.Name }], s2⟩ := by
    simp [Reconcile, hws, hactive, hpod]
  rw [hR]
  exact ⟨rfl, rfl, rfl, rfl⟩

/-- C9, at a store holding `ws1` and, at its key, a Pod that differs from the
synthesized one. -/
theorem C9_existing_child_noop_witness :
    memClient.GetWorkspace req1.NamespacedName store1WithPod = (Except.ok ws1, store1WithPod) ∧
    ws1.DeletionTimestamp = none ∧
    memClient.GetPod { Namespace := ws1.Namespace, Name := ws1.Name } store1WithPod =
      (Except.ok foreignPod, store1WithPod) ∧
    foreignPod ≠ podForWorkspace managerScheme ws1 ∧
    (createsOf (Reconcile ⟨memClient, managerScheme⟩ req1 store1WithPod).calls = [] ∧
      (Reconcile ⟨memClient, managerScheme⟩ req1 store1WithPod).calls.filter
        Call.isMutating = [] ∧
      (Reconcile ⟨memClient, managerScheme⟩ req1 store1WithPod).result =
        { Requeue := false, RequeueAfter := 0 } ∧
      (Reconcile ⟨memClient, managerScheme⟩ req1 store1WithPod).err = none) :=
  ⟨rfl, rfl, rfl, by decide,
    C9_existing_child_noop ⟨memClient, managerScheme⟩ req1 store1WithPod store1WithPod
      store1WithPod ws1 foreignPod rfl rfl rfl⟩

/-- C10. Error propagation: `Reconcile` returns a non-nil error `e` exactly in
three cases, (1) `Get` of the Workspace fails with `e`, which is not NotFound,
(2) the Workspace is active and `Get` of the child Pod fails with `e`, which is
not NotFound, (3) the Workspace is active, the child Pod is NotFound and `Create`
of the synthesized Pod fails with `e`; the returned error is then the error of
the store, unchanged, and the Result is empty. In case (1) no Pod lookup and no
`Create` is issued, in case (2) no `Create` is issued. -/
theorem C10_error_propagation {σ : Type} (r : WorkspaceReconciler σ) (req : Request) (s : σ) :
    (∀ e : Error, (Reconcile r req s).err = some e ↔
      ((∃ s1, r.Client.GetWorkspace req.NamespacedName s = (Except.error e, s1) ∧
          IsNotFound e = false) ∨
       (∃ ws s1 s2, r.Client.GetWorkspace req.NamespacedName s = (Except.ok ws, s1) ∧
          ws.DeletionTimestamp = none ∧
          r.Client.GetPod { Namespace := ws.Namespace, Name := ws.Name } s1 =
            (Except.error e, s2) ∧
          IsNotFound e = false) ∨
       (∃ ws s1 e0 s2 s3, r.Client.GetWorkspace req.NamespacedName s = (Except.ok ws, s1) ∧
          ws.DeletionTimestamp = none ∧
          r.Client.GetPod { Namespace := ws.Namespace, Name := ws.Name } s1 =
            (Except.error e0, s2) ∧
          IsNotFound e0 = true ∧
          r.Client.Create (podForWorkspace r.Scheme ws) s2 = (some e, s3)))) ∧
    ((Reconcile r req s).err ≠ none →
      (Reconcile r req s).result = { Requeue := false, RequeueAfter := 0 }) ∧
    (∀ e s1, r.Client.GetWorkspace req.NamespacedName s = (Except.error e, s1) →
      IsNotFound e = false →
      podLookupsOf (Reconcile r req s).calls = [] ∧ createsOf (Reconcile r req s).calls = []) ∧
    (∀ ws s1 e s2, r.Client.GetWorkspace req.NamespacedName s = (Except.ok ws, s1) →
      ws.DeletionTimestamp = none →
      r.Client.GetPod { Namespace := ws.Namespace, Name := ws.Name } s1 = (Except.error e, s2) →
      IsNotFound e = false →
      createsOf (Reconcile r req s).calls = []) := by
  rcases hws : r.Client.GetWorkspace req.NamespacedName s with ⟨_ | ws, s1⟩
  · rename_i e0
    by_cases hnf : IsNotFound e0 = true
    · simp [Reconcile, hws, hnf]
    · simp only [Bool.not_eq_true] at hnf
      have hR : Reconcile r req s =
          ⟨{}, some e0, [Call.GetWorkspace req.NamespacedName], s1⟩ := by
        simp [Reconcile, hws, hnf]
      rw [hR]
      refine ⟨fun e => ⟨fun h => ?_, fun h => ?_⟩, fun _ => rfl, fun _ _ _ _ => ⟨rfl, rfl⟩,
        fun _ _ _ _ h => ?_⟩
      · cases h
        exact Or.inl ⟨s1, rfl, hnf⟩
      · rcases h with ⟨_, h, _⟩ | ⟨_, _, _, h, _⟩ | ⟨_, _, _, _, _, h, _⟩ <;> cases h
        rfl
      · cases h
  · cases hdel : ws.DeletionTimestamp with
    | some t =>
      have hR : Reconcile r req s =
          ⟨{}, none, [Call.GetWorkspace req.NamespacedName], s1⟩ := by
        simp [Reconcile, hws, hdel]
      rw [hR]
      refine ⟨fun e => ⟨fun h => ?_, fun h => ?_⟩, fun h => absurd rfl h,
        fun _ _ h => ?_, fun _ _ _ _ _ _ _ _ => rfl⟩
      · cases h
      · rcases h with ⟨_, h, _⟩ | ⟨_, _, _, h, h2, _⟩ | ⟨_, _, _, _, _, h, h2, _⟩ <;> cases h
        · rw [hdel] at h2; cases h2
        · rw [hdel] at h2; cases h2
      · cases h
    | none =>
      rcases hpod : r.Client.GetPod { Namespace := ws.Namespace, Name := ws.Name } s1
        with ⟨_ | found, s2⟩
      · rename_i e0
        by_cases hnf : IsNotFound e0 = true
        · rcases hcr : r.Client.Create (podForWorkspace r.Scheme ws) s2 with ⟨_ | e1, s3⟩
          · have hR : Reconcile r req s =
                ⟨{ Requeue := true }, none,
                  [Call.GetWorkspace req.NamespacedName,
                   Call.GetPod { Namespace := ws.Namespace, Name := ws.Name },
                   Call.Create (podForWorkspace r.Scheme ws)], s3⟩ := by
              simp [Reconcile, hws, hdel, hpod, hnf, hcr]
            rw [hR]
            refine ⟨fun e => ⟨fun h => ?_, fun h => ?_⟩, fun h => absurd rfl h,
              fun _ _ h => ?_, fun _ _ _ _ h _ h3 h4 => ?_⟩
            · cases h
            · rcases h with ⟨_, h, _⟩ | ⟨_, _, _, h, _, h3, h4⟩ | ⟨_, _, _, _, _, h, _, h3, _, h5⟩
                <;> cases h
              · rw [hpod] at h3; cases h3; rw [hnf] at h4; cases h4
              · rw [hpod] at h3; cases h3; rw [hcr] at h5; cases h5
            · cases h
            · cases h; rw [hpod] at h3; cases h3; rw [hnf] at h4; cases h4
          · have hR : Reconcile r req s =
                ⟨{}, some e1,
                  [Call.GetWorkspace req.NamespacedName,
                   Call.GetPod { Namespace := ws.Namespace, Name := ws.Name },
                   Call.Create (podForWorkspace r.Scheme ws)], s3⟩ := by
              simp [Reconcile, hws, hdel, hpod, hnf, hcr]
            rw [hR]
            refine ⟨fun e => ⟨fun h => ?_, fun h => ?_⟩, fun _ => rfl,
              fun _ _ h => ?_, fun _ _ _ _ h _ h3 h4 => ?_⟩
            · cases h
              exact Or.inr (Or.inr ⟨ws, s1, e0, s2, s3, rfl, hdel, hpod, hnf, hcr⟩)
            · rcases h with ⟨_, h, _⟩ | ⟨_, _, _, h, _, h3, h4⟩ | ⟨_, _, _, _, _, h, _, h3, _, h5⟩
                <;> cases h
              · rw [hpod] at h3; cases h3; rw [hnf] at h4; cases h4
              · rw [hpod] at h3; cases h3; rw [hcr] at h5; cases h5; rfl
            · cases h
            · cases h; rw [hpod] at h3; cases h3; rw [hnf] at h4; cases h4
        · simp only [Bool.not_eq_true] at hnf
          have hR : Reconcile r req s =
              ⟨{}, some e0,
                [Call.GetWorkspace req.NamespacedName,
                 Call.GetPod { Namespace := ws.Namespace, Name := ws.Name }], s2⟩ := by
            simp [Reconcile, hws, hdel, hpod, hnf]
          rw [hR]
          refine ⟨fun e => ⟨fun h => ?_, fun h => ?_⟩, fun _ => rfl,
            fun _ _ h => ?_, fun _ _ _ _ _ _ _ _ => rfl⟩
          · cases h
            exact Or.inr (Or.inl ⟨ws, s1, s2, rfl, hdel, hpod, hnf⟩)
          · rcases h with ⟨_, h, _⟩ | ⟨_, _, _, h, _, h3, h4⟩ | ⟨_, _, _, _, _, h, _, h3, h4, _⟩
              <;> cases h
            · rw [hpod] at h3; cases h3; rfl
            · rw [hpod] at h3; cases h3; rw [hnf] at h4; cases h4
          · cases h
      · have hR : Reconcile r req s =
            ⟨{}, none,
              [Call.GetWorkspace req.NamespacedName,
               Call.GetPod { Namespace := ws.Namespace, Name := ws.Name }], s2⟩ := by
          simp [Reconcile, hws, hdel, hpod]
        rw [hR]
        refine ⟨fun e => ⟨fun h => ?_, fun h => ?_⟩, fun h => absurd rfl h,
          fun _ _ h => ?_, fun _ _ _ _ _ _ _ _ => rfl⟩
        · cases h
        · rcases h with ⟨_, h, _⟩ | ⟨_, _, _, h, _, h3, _⟩ | ⟨_, _, _, _, _, h, _, h3, _⟩
            <;> cases h
          · rw [hpod] at h3; cases h3
          · rw [hpod] at h3; cases h3
        · cases h

/-- C10, at an unreachable store: the error of the Workspace `Get` is what
`Reconcile` returns, with the empty Result and without any further call. -/
theorem C10_error_propagation_witness :
    (Reconcile ⟨unavailableClient, managerScheme⟩ req1 store1).err = some errUnavailable ∧
    (Reconcile ⟨unavailableClient, managerScheme⟩ req1 store1).result =
      { Requeue := false, RequeueAfter := 0 } ∧
    podLookupsOf (Reconcile ⟨unavailableClient, managerScheme⟩ req1 store1).calls = [] ∧
    createsOf (Reconcile ⟨unavailableClient, managerScheme⟩ req1 store1).calls = [] :=
  ⟨((C10_error_propagation ⟨unavailableClient, managerScheme⟩ req1 store1).1 errUnavailable).2
      (Or.inl ⟨store1, rfl, rfl⟩),
    (C10_error_propagation ⟨unavailableClient, managerScheme⟩ req1 store1).2.1 (by decide),
    (C10_error_propagation ⟨unavailableClient, managerScheme⟩ req1 store1).2.2.1
      errUnavailable store1 rfl rfl⟩

/-- C11. At-most-one-create and frame: for every store and request, one
invocation of `Reconcile` issues at most one mutating call; a mutating call is
the `Create` of the synthesized Pod, which sits at the `(namespace, name)` of the
Workspace fetched for the request key, and it comes right after a Pod `Get` on
that same key that returned NotFound. On the in-memory store, the Workspaces
after the invocation are the ones before it, spec included, the Pods after it
are the Pods before it followed by the Pod created, if any, and every lookup
that found a Pod before finds the same Pod after. -/
theorem C11_at_most_one_create_and_frame {σ : Type} (r : WorkspaceReconciler σ)
    (req : Request) (s : σ) (scheme : Scheme) (m : MemStore) :
    ((Reconcile r req s).calls.filter Call.isMutating).length ≤ 1 ∧
    (∀ c ∈ (Reconcile r req s).calls, c.isMutating = true →
      ∃ ws s1 e s2,
        r.Client.GetWorkspace req.NamespacedName s = (Except.ok ws, s1) ∧
        c = Call.Create (podForWorkspace r.Scheme ws) ∧
        (podForWorkspace r.Scheme ws).Namespace = ws.Namespace ∧
        (podForWorkspace r.Scheme ws).Name = ws.Name ∧
        r.Client.GetPod { Namespace := ws.Namespace, Name := ws.Name } s1 =
          (Except.error e, s2) ∧
        IsNotFound e = true ∧
        (Reconcile r req s).calls =
          [Call.GetWorkspace req.NamespacedName,
           Call.GetPod { Namespace := ws.Namespace, Name := ws.Name }, c]) ∧
    (Reconcile ⟨memClient, scheme⟩ req m).store.workspaces = m.workspaces ∧
    (Reconcile ⟨memClient, scheme⟩ req m).store.pods =
      m.pods ++ createsOf (Reconcile ⟨memClient, scheme⟩ req m).calls ∧
    (∀ key p, (memClient.GetPod key m).1 = Except.ok p →
      (memClient.GetPod key (Reconcile ⟨memClient, scheme⟩ req m).store).1 = Except.ok p) := by
  have hgen : ((Reconcile r req s).calls.filter Call.isMutating).length ≤ 1 ∧
      (∀ c ∈ (Reconcile r req s).calls, c.isMutating = true →
        ∃ ws s1 e s2,
          r.Client.GetWorkspace req.NamespacedName s = (Except.ok ws, s1) ∧
          c = Call.Create (podForWorkspace r.Scheme ws) ∧
          (podForWorkspace r.Scheme ws).Namespace = ws.Namespace ∧
          (podForWorkspace r.Scheme ws).Name = ws.Name ∧
          r.Client.GetPod { Namespace := ws.Namespace, Name := ws.Name } s1 =
            (Except.error e, s2) ∧
          IsNotFound e = true ∧
          (Reconcile r req s).calls =
            [Call.GetWorkspace req.NamespacedName,
             Call.GetPod { Namespace := ws.Namespace, Name := ws.Name }, c]) := by
    rcases Reconcile_paths r req s with
      ⟨e, s1, _, _, hR⟩ | ⟨e, s1, _, _, hR⟩ | ⟨ws, s1, t, _, _, hR⟩ |
      ⟨ws, s1, found, s2, _, _, _, hR⟩ | ⟨ws, s1, e, s2, _, _, _, _, hR⟩ |
      ⟨ws, s1, e, s2, e1, s3, hws, _, hpod, hnf, _, hR⟩ |
      ⟨ws, s1, e, s2, s3, hws, _, hpod, hnf, _, hR⟩
    all_goals rw [hR]
    all_goals refine ⟨by simp [Call.isMutating], ?_⟩
    all_goals intro c hc hm
    all_goals simp only [List.mem_cons, List.mem_singleton, List.not_mem_nil, or_false] at hc
    · subst hc; cases hm
    · subst hc; cases hm
    · subst hc; cases hm
    · rcases hc with hc | hc <;> (subst hc; cases hm)
    · rcases hc with hc | hc <;> (subst hc; cases hm)
    · rcases hc with hc | hc | hc
      · subst hc; cases hm
      · subst hc; cases hm
      · subst hc
        exact ⟨ws, s1, e, s2, hws, rfl, podForWorkspace_Namespace _ _, podForWorkspace_Name _ _,
          hpod, hnf, rfl⟩
    · rcases hc with hc | hc | hc
      · subst hc; cases hm
      · subst hc; cases hm
      · subst hc
        exact ⟨ws, s1, e, s2, hws, rfl, podForWorkspace_Namespace _ _, podForWorkspace_Name _ _,
          hpod, hnf, rfl⟩
  have hframe : (Reconcile ⟨memClient, scheme⟩ req m).store.workspaces = m.workspaces ∧
      (Reconcile ⟨memClient, scheme⟩ req m).store.pods =
        m.pods ++ createsOf (Reconcile ⟨memClient, scheme⟩ req m).calls := by
    rcases Reconcile_paths ⟨memClient, scheme⟩ req m with
      ⟨e, s1, hws, _, hR⟩ | ⟨e, s1, hws, _, hR⟩ | ⟨ws, s1, t, hws, _, hR⟩ |
      ⟨ws, s1, found, s2, hws, _, hpod, hR⟩ | ⟨ws, s1, e, s2, hws, _, hpod, _, hR⟩ |
      ⟨ws, s1, e, s2, e1, s3, hws, _, hpod, _, hcr, hR⟩ |
      ⟨ws, s1, e, s2, s3, hws, _, hpod, _, hcr, hR⟩
    · obtain rfl := memGetWorkspace_eq hws
      rw [hR]
      simp [createsOf]
    · obtain rfl := memGetWorkspace_eq hws
      rw [hR]
      simp [createsOf]
    · obtain rfl := memGetWorkspace_eq hws
      rw [hR]
      simp [createsOf]
    · obtain rfl := memGetWorkspace_eq hws
      obtain rfl := memGetPod_eq hpod
      rw [hR]
      simp [createsOf]
    · obtain rfl := memGetWorkspace_eq hws
      obtain rfl := memGetPod_eq hpod
      rw [hR]
      simp [createsOf]
    · obtain rfl := memGetWorkspace_eq hws
      obtain rfl := memGetPod_eq hpod
      have hc := memCreate_after_notFound _ (podForWorkspace scheme ws) s2 s2 e
        (podForWorkspace_Namespace scheme ws) (podForWorkspace_Name scheme ws) hpod
      rw [show memClient.Create (podForWorkspace scheme ws) s2 = (some e1, s3) from hcr] at hc
      cases hc
    · obtain rfl := memGetWorkspace_eq hws
      obtain rfl := memGetPod_eq hpod
      have hc := memCreate_after_notFound _ (podForWorkspace scheme ws) s2 s2 e
        (podForWorkspace_Namespace scheme ws) (podForWorkspace_Name scheme ws) hpod
      rw [show memClient.Create (podForWorkspace scheme ws) s2 = (none, s3) from hcr] at hc
      simp only [Prod.mk.injEq, true_and] at hc
      subst hc
      rw [hR]
      exact ⟨rfl, rfl⟩
  refine ⟨hgen.1, hgen.2, hframe.1, hframe.2, ?_⟩
  intro key p hp
  rw [memGetPod_ok_iff] at hp ⊢
  rw [hframe.2, List.find?_append, hp]
  rfl

/-- C11, at a store that holds other objects: one `Create`, the Workspaces are
unchanged, and the Pod that was stored is still the first stored Pod, followed
by the created one. -/
theorem C11_at_most_one_create_and_frame_witness :
    ((Reconcile ⟨memClient, managerScheme⟩ req1 storeCrowded).calls.filter
        Call.isMutating).length ≤ 1 ∧
    (Reconcile ⟨memClient, managerScheme⟩ req1 storeCrowded).store.workspaces =
      [wsOther, ws1] ∧
    (Reconcile ⟨memClient, managerScheme⟩ req1 storeCrowded).store.pods =
      [bystanderPod, podForWorkspace managerScheme ws1] :=
  ⟨(C11_at_most_one_create_and_frame ⟨memClient, managerScheme⟩ req1 storeCrowded
      managerScheme storeCrowded).1,
    (C11_at_most_one_create_and_frame ⟨memClient, managerScheme⟩ req1 storeCrowded
      managerScheme storeCrowded).2.2.1,
    (C11_at_most_one_create_and_frame ⟨memClient, managerScheme⟩ req1 storeCrowded
      managerScheme storeCrowded).2.2.2.1⟩

/-- C12 as stated fails: `ws1` and `ws1Twin` have identical Spec, and
`podForWorkspace` gives them different Pods (other name, namespace and owner
reference). -/
theorem C12_same_spec_different_pod_counterexample :
    ws1.Spec = ws1Twin.Spec ∧
    podForWorkspace managerScheme ws1 ≠ podForWorkspace managerScheme ws1Twin ∧
    (podForWorkspace managerScheme ws1).Name = "ws1" ∧
    (podForWorkspace managerScheme ws1Twin).Name = "ws2" :=
  ⟨rfl, by decide, rfl, rfl⟩

/-- C12, amended. For every two Workspaces that agree on `Spec.Repo.Name`,
`Spec.Repo.URL`, `Spec.Image` and `Spec.Resources`, `podForWorkspace` produces
identical pod specs (init containers, containers, volumes), whatever their
Status, `Spec.Repo.BaseRef`, metadata and scheme; the whole Pods are identical
when the two Workspaces also agree on name, namespace and UID and the scheme is
the same, so calling it twice on the same Workspace yields equal results. -/
theorem C12_child_is_function_of_spec_and_identity (scheme scheme2 : Scheme)
    (ws ws2 : Workspace)
    (hname : ws.Spec.Repo.Name = ws2.Spec.Repo.Name)
    (hurl : ws.Spec.Repo.URL = ws2.Spec.Repo.URL)
    (himage : ws.Spec.Image = ws2.Spec.Image)
    (hres : ws.Spec.Resources = ws2.Spec.Resources) :
    (podForWorkspace scheme ws).Spec = (podForWorkspace scheme2 ws2).Spec ∧
    (podForWorkspace scheme ws).Spec.InitContainers =
      (podForWorkspace scheme2 ws2).Spec.InitContainers ∧
    (podForWorkspace scheme ws).Spec.Containers =
      (podForWorkspace scheme2 ws2).Spec.Containers ∧
    (podForWorkspace scheme ws).Spec.Volumes = (podForWorkspace scheme2 ws2).Spec.Volumes ∧
    (ws.Name = ws2.Name → ws.Namespace = ws2.Namespace → ws.UID = ws2.UID →
      scheme = scheme2 → podForWorkspace scheme ws = podForWorkspace scheme2 ws2) := by
  have hspec : (podForWorkspace scheme ws).Spec = (podForWorkspace scheme2 ws2).Spec := by
    rw [podForWorkspace_Spec, podForWorkspace_Spec]
    simp only [podLiteral, hname, hurl, himage, hres]
  refine ⟨hspec, by rw [hspec], by rw [hspec], by rw [hspec], ?_⟩
  intro h1 h2 h3 h4
  subst h4
  have hlit : podLiteral ws = podLiteral ws2 := by
    simp only [podLiteral, hname, hurl, himage, hres, h1, h2]
  unfold podForWorkspace SetControllerReference
  cases GVKForWorkspace scheme with
  | error e => simp only [hlit]
  | ok gvk => simp only [hlit, h1, h3]

/-- C12 amended, at `ws1` and `ws1Rebased`, which differ in `BaseRef` and Status
only: the synthesized Pods are equal. -/
theorem C12_child_is_function_of_spec_and_identity_witness :
    ws1.Spec.Repo.BaseRef ≠ ws1Rebased.Spec.Repo.BaseRef ∧
    ws1.Status ≠ ws1Rebased.Status ∧
    (podForWorkspace managerScheme ws1).Spec = (podForWorkspace managerScheme ws1Rebased).Spec ∧
    podForWorkspace managerScheme ws1 = podForWorkspace managerScheme ws1Rebased :=
  ⟨by decide, by decide,
    (C12_child_is_function_of_spec_and_identity managerScheme managerScheme ws1 ws1Rebased
      rfl rfl rfl rfl).1,
    (C12_child_is_function_of_spec_and_identity managerScheme managerScheme ws1 ws1Rebased
      rfl rfl rfl rfl).2.2.2.2 rfl rfl rfl rfl⟩

/-- C13. Shared scratch volume: for every Workspace the Pod of
`podForWorkspace` declares exactly one volume, which is an EmptyDir volume and
no other kind; the init container and the main container are its only
containers and each has exactly one volume mount, which names that volume and
mounts it at `/workspace`; no volume mount names an undeclared volume. -/
theorem C13_shared_scratch_volume (scheme : Scheme) (ws : Workspace) :
    ∃ (vol : Volume) (init main : Container),
      (podForWorkspace scheme ws).Spec.Volumes = [vol] ∧
      vol.EmptyDir.isSome = true ∧
      vol.HostPath = none ∧
      vol.PersistentVolumeClaim = none ∧
      (podForWorkspace scheme ws).Spec.InitContainers = [init] ∧
      (podForWorkspace scheme ws).Spec.Containers = [main] ∧
      init.VolumeMounts = [{ Name := vol.Name, MountPath := "/workspace" }] ∧
      main.VolumeMounts = [{ Name := vol.Name, MountPath := "/workspace" }] ∧
      (∀ c ∈ (podForWorkspace scheme ws).Spec.InitContainers ++
            (podForWorkspace scheme ws).Spec.Containers,
          ∀ mnt ∈ c.VolumeMounts,
            mnt.Name ∈ (podForWorkspace scheme ws).Spec.Volumes.map Volume.Name) := by
  rw [podForWorkspace_Spec]
  refine ⟨_, _, _, rfl, rfl, rfl, rfl, rfl, rfl, rfl, rfl, ?_⟩
  intro c hc mnt hmnt
  simp only [podLiteral, List.cons_append, List.nil_append, List.mem_cons, List.mem_singleton,
    List.not_mem_nil, or_false] at hc
  rcases hc with hc | hc
  · subst hc
    simp only [List.mem_singleton] at hmnt
    subst hmnt
    simp [podLiteral]
  · subst hc
    simp only [List.mem_singleton] at hmnt
    subst hmnt
    simp [podLiteral]

/-- C14. Level-triggered locality: take two stores, of any kind and in any
state, that give the same answer to the `Get` of the Workspace at the request
key, the same answer to the `Get` of the Pod at the fetched Workspace's
`(namespace, name)`, and the same answer to the `Create` of the synthesized Pod.
Then `Reconcile` returns the same Result and the same error against both, and
issues the same calls, hence the same `Create`, whatever else the stores hold. -/
theorem C14_level_triggered_locality {σ τ : Type} (c : Client σ) (c2 : Client τ)
    (scheme : Scheme) (req : Request) (s : σ) (t : τ)
    (hws : (c.GetWorkspace req.NamespacedName s).1 = (c2.GetWorkspace req.NamespacedName t).1)
    (hpod : ∀ ws, (c.GetWorkspace req.NamespacedName s).1 = Except.ok ws →
      (c.GetPod { Namespace := ws.Namespace, Name := ws.Name }
          (c.GetWorkspace req.NamespacedName s).2).1 =
        (c2.GetPod { Namespace := ws.Namespace, Name := ws.Name }
          (c2.GetWorkspace req.NamespacedName t).2).1)
    (hcreate : ∀ ws, (c.GetWorkspace req.NamespacedName s).1 = Except.ok ws →
      (c.Create (podForWorkspace scheme ws)
          (c.GetPod { Namespace := ws.Namespace, Name := ws.Name }
            (c.GetWorkspace req.NamespacedName s).2).2).1 =
        (c2.Create (podForWorkspace scheme ws)
          (c2.GetPod { Namespace := ws.Namespace, Name := ws.Name }
            (c2.GetWorkspace req.NamespacedName t).2).2).1) :
    (Reconcile ⟨c, scheme⟩ req s).result = (Reconcile ⟨c2, scheme⟩ req t).result ∧
    (Reconcile ⟨c, scheme⟩ req s).err = (Reconcile ⟨c2, scheme⟩ req t).err ∧
    (Reconcile ⟨c, scheme⟩ req s).calls = (Reconcile ⟨c2, scheme⟩ req t).calls ∧
    createsOf (Reconcile ⟨c, scheme⟩ req s).calls =
      createsOf (Reconcile ⟨c2, scheme⟩ req t).calls := by
  have key : (Reconcile ⟨c, scheme⟩ req s).result = (Reconcile ⟨c2, scheme⟩ req t).result ∧
      (Reconcile ⟨c, scheme⟩ req s).err = (Reconcile ⟨c2, scheme⟩ req t).err ∧
      (Reconcile ⟨c, scheme⟩ req s).calls = (Reconcile ⟨c2, scheme⟩ req t).calls := by
    rcases h1 : c.GetWorkspace req.NamespacedName s with ⟨a, s1⟩
    rcases h2 : c2.GetWorkspace req.NamespacedName t with ⟨a2, t1⟩
    rw [h1, h2] at hws hpod hcreate
    simp only at hws hpod hcreate
    subst hws
    cases a with
    | error e =>
      cases hnf : IsNotFound e <;> simp [Reconcile, h1, h2, hnf]
    | ok ws =>
      cases hdel : ws.DeletionTimestamp with
      | some d => simp [Reconcile, h1, h2, hdel]
      | none =>
        have hp := hpod ws rfl
        have hc := hcreate ws rfl
        rcases h3 : c.GetPod { Namespace := ws.Namespace, Name := ws.Name } s1 with ⟨b, s2⟩
        rcases h4 : c2.GetPod { Namespace := ws.Namespace, Name := ws.Name } t1 with ⟨b2, t2⟩
        rw [h3, h4] at hp hc
        simp only at hp hc
        subst hp
        cases b with
        | ok found => simp [Reconcile, h1, h2, hdel, h3, h4]
        | error e =>
          cases hnf : IsNotFound e with
          | false => simp [Reconcile, h1, h2, hdel, h3, h4, hnf]
          | true =>
            rcases h5 : c.Create (podForWorkspace scheme ws) s2 with ⟨x, s3⟩
            rcases h6 : c2.Create (podForWorkspace scheme ws) t2 with ⟨x2, t3⟩
            rw [h5, h6] at hc
            simp only at hc
            subst hc
            cases x <;> simp [Reconcile, h1, h2, hdel, h3, h4, hnf, h5, h6]
  exact ⟨key.1, key.2.1, key.2.2, by rw [key.2.2]⟩

/-- C14, at two stores that hold `ws1` without its Pod and differ in what they
hold under other keys. -/
theorem C14_level_triggered_locality_witness :
    store1 ≠ storeCrowded ∧
    (memClient.GetWorkspace req1.NamespacedName store1).1 =
      (memClient.GetWorkspace req1.NamespacedName storeCrowded).1 ∧
    ((Reconcile ⟨memClient, managerScheme⟩ req1 store1).result =
        (Reconcile ⟨memClient, managerScheme⟩ req1 storeCrowded).result ∧
      (Reconcile ⟨memClient, managerScheme⟩ req1 store1).err =
        (Reconcile ⟨memClient, managerScheme⟩ req1 storeCrowded).err ∧
      (Reconcile ⟨memClient, managerScheme⟩ req1 store1).calls =
        (Reconcile ⟨memClient, managerScheme⟩ req1 storeCrowded).calls ∧
      createsOf (Reconcile ⟨memClient, managerScheme⟩ req1 store1).calls =
        createsOf (Reconcile ⟨memClient, managerScheme⟩ req1 storeCrowded).calls) :=
  ⟨by decide, rfl,
    C14_level_triggered_locality memClient memClient managerScheme req1 store1 storeCrowded
      rfl (fun _ h => by cases h; rfl) (fun _ h => by cases h; rfl)⟩

/-- C15. Result characterisation: for every store and request, `Reconcile`
returns Requeue = true if and only if it issued a `Create` (of the synthesized
Pod, after the Workspace was found active and its Pod was NotFound) and the
store answered that `Create` with a nil error; equivalently, if and only if the
calls contain a `Create` and the returned error is nil. RequeueAfter is zero in
every returned Result, and Requeue = true never comes with a non-nil error. -/
theorem C15_result_characterisation {σ : Type} (r : WorkspaceReconciler σ) (req : Request)
    (s : σ) :
    ((Reconcile r req s).result.Requeue = true ↔
      ∃ ws s1 e s2 s3,
        r.Client.GetWorkspace req.NamespacedName s = (Except.ok ws, s1) ∧
        ws.DeletionTimestamp = none ∧
        r.Client.GetPod { Namespace := ws.Namespace, Name := ws.Name } s1 =
          (Except.error e, s2) ∧
        IsNotFound e = true ∧
        r.Client.Create (podForWorkspace r.Scheme ws) s2 = (none, s3) ∧
        createsOf (Reconcile r req s).calls = [podForWorkspace r.Scheme ws]) ∧
    ((Reconcile r req s).result.Requeue = true ↔
      createsOf (Reconcile r req s).calls ≠ [] ∧ (Reconcile r req s).err = none) ∧
    (Reconcile r req s).result.RequeueAfter = 0 ∧
    ((Reconcile r req s).result.Requeue = true → (Reconcile r req s).err = none) := by
  rcases Reconcile_paths r req s with
    ⟨e, s1, hws, hnf, hR⟩ | ⟨e, s1, hws, hnf, hR⟩ | ⟨ws, s1, t, hws, hdel, hR⟩ |
    ⟨ws, s1, found, s2, hws, hdel, hpod, hR⟩ | ⟨ws, s1, e, s2, hws, hdel, hpod, hnf, hR⟩ |
    ⟨ws, s1, e, s2, e1, s3, hws, hdel, hpod, hnf, hcr, hR⟩ |
    ⟨ws, s1, e, s2, s3, hws, hdel, hpod, hnf, hcr, hR⟩
  all_goals rw [hR]
  · simp_all [createsOf]
  · simp_all [createsOf]
  · simp_all [createsOf]
  · simp_all [createsOf]
  · simp_all [createsOf]
  · simp_all [createsOf]
  · exact ⟨⟨fun _ => ⟨ws, s1, e, s2, s3, hws, hdel, hpod, hnf, hcr, rfl⟩, fun _ => rfl⟩,
      ⟨fun _ => ⟨by simp [createsOf], rfl⟩, fun _ => rfl⟩, rfl, fun _ => rfl⟩

/-- C16. Clone destination and IDE path agree: for every Workspace, in the Pod
of `podForWorkspace` the clone target of the init container is its third
argument, `Repo.Name`, and the last argument of the main container is the
working directory of the init container, followed by `/`, followed by that
clone target, whatever `Repo.Name` is. -/
theorem C16_clone_destination_and_ide_path_agree (scheme : Scheme) (ws : Workspace) :
    ∃ (init main : Container) (target : String),
      (podForWorkspace scheme ws).Spec.InitContainers = [init] ∧
      (podForWorkspace scheme ws).Spec.Containers = [main] ∧
      init.Args[2]? = some target ∧
      target = ws.Spec.Repo.Name ∧
      main.Args.getLast? = some (init.WorkingDir ++ "/" ++ target) := by
  rw [podForWorkspace_Spec]
  refine ⟨_, _, ws.Spec.Repo.Name, rfl, rfl, rfl, rfl, ?_⟩
  have hlit : "/workspace" ++ "/" = "/workspace/" := by decide
  show some ("/workspace/" ++ ws.Spec.Repo.Name) =
    some ("/workspace" ++ "/" ++ ws.Spec.Repo.Name)
  rw [hlit]

/-- The argument lists of both steps at an empty repository name and at one with
a path separator. -/
theorem podForWorkspace_args_examples :
    (podForWorkspace managerScheme ws1NoName).Spec.InitContainers.map Container.Args =
      [["clone", "https://example.git", ""]] ∧
    (podForWorkspace managerScheme ws1NoName).Spec.Containers.map Container.Args =
      [["--auth", "none", "/workspace/"]] ∧
    (podForWorkspace managerScheme ws1Nested).Spec.InitContainers.map Container.Args =
      [["clone", "https://example.git", "src/app"]] ∧
    (podForWorkspace managerScheme ws1Nested).Spec.Containers.map Container.Args =
      [["--auth", "none", "/workspace/src/app"]] :=
  ⟨by decide, by decide, by decide, by decide⟩

end VscKube
